import Mathlib

/-!
Shallow embedding of the OTP lifecycle manager of the
`API_Red_Inteligente_Auth` repository: `app/services/code_service.py`
(class `CodeService`) and `app/models/code_verification.py`
(class `CodeVerification`), together with the configuration surface of
`app/core/config.py` that those two files consume.

Modelling conventions:
  * Timestamps (`datetime.utcnow()` readings) are natural numbers counting
    whole seconds; minute/hour quantities of the source are scaled to
    seconds, so a comparison `elapsed_minutes < M` of the source becomes
    `elapsed_seconds < 60 * M`, which is the same inequality for every
    real-valued elapsed time and exactly matches the source at
    whole-second instants.  Each `datetime.utcnow()` call of an operation
    is a separate parameter, because the source reads the clock several
    times per operation and the readings need not coincide.
  * The database is explicit state: a list of personnel rows
    (`dbo.stg_personal`) and a list of `user_pswr` rows.  `query(...).first()`
    is `List.find?`; mutating the fetched row and committing is
    `updateFirst` on the list.
  * The random draws of the source (`secrets.choice` for the 6-digit code,
    the Argon2 salt) are parameters of the operations.
  * Fallible behaviour (`raise HTTPException`) is `Except ApiError`.
-/

/-- Configuration surface of `app/core/config.py` used by the OTP core.
Defaults are those of the `Settings` class. -/
structure Settings where
  CODE_EXPIRATION_MINUTES : Nat := 30
  CODE_RESEND_DELAY_MINUTES : Nat := 2
  CODE_MAX_RESEND_PER_HOUR : Nat := 5
deriving DecidableEq, Repr

/-- Modelled from the spec: the Argon2 credential hasher (`passlib.hash.argon2`)
is an external library, not part of this repository's sources.  Section 4.1 of
the spec gives its contract: a salted one-way hash whose digest embeds its
parameters, with `verify` recomputing the derivation and comparing.  The model
keeps the salt and the derived check value; the derivation is modelled as an
injective function of the plaintext for a fixed salt (here, the identity),
which is the only property the contract's round-trip laws need. -/
structure Argon2Digest where
  salt : Nat
  check : String
deriving DecidableEq, Repr

/-- Modelled from the spec: `argon2.hash(code)` with a freshly drawn salt;
the salt is a parameter because the draw is external randomness. -/
def argon2hash (salt : Nat) (code : String) : Argon2Digest :=
  { salt := salt, check := code }

/-- Modelled from the spec: `argon2.verify(code, digest)` recomputes the
derivation for the digest's salt and compares with the stored check value. -/
def argon2verify (code : String) (d : Argon2Digest) : Bool :=
  d.check == code

/-- Response and error messages of the source, verbatim (code_service.py
lines 140, 148, 156, 164, 185; code_verification.py lines 44, 51). -/
def msgCodeNotFound : String :=
  "No se encontró un código de verificación para este usuario."
def msgCodeAlreadyUsed : String :=
  "El código ya fue utilizado. Solicite uno nuevo."
def msgCodeExpired : String :=
  "El código ha expirado. Solicite uno nuevo."
def msgCodeIncorrect : String :=
  "El código ingresado es incorrecto."
def msgValidated : String :=
  "Código verificado correctamente."
def msgHourlyCap : String :=
  "Ha excedido el límite de reenvíos por hora. Intente más tarde."
def msgWait (wait_time : Nat) : String :=
  "Debe esperar " ++ toString wait_time ++
    " minuto(s) antes de solicitar un nuevo código."

namespace CodeService

/-- `CodeService.hash_code` (code_service.py line 19): `argon2.hash(code)`. -/
def hash_code (salt : Nat) (code : String) : Argon2Digest :=
  argon2hash salt code

/-- `CodeService.verify_code_hash` (code_service.py lines 22-27):
`argon2.verify` wrapped in try/except returning `False` on any exception.
In the model every `Argon2Digest` is well formed, so the exception branch
(malformed digests) is unreachable and the wrapper is `argon2verify`. -/
def verify_code_hash (code : String) (hashed_code : Argon2Digest) : Bool :=
  argon2verify code hashed_code

end CodeService

/-- One row of `dbo.user_pswr` (`CodeVerification` model,
code_verification.py lines 7-19).  `revoked` is an SQL `Integer` (0 = unused,
set to 1 on successful validation); `last_resend_at` is nullable. -/
structure CodeVerification where
  id : Nat
  correo : String
  movil : Nat
  pswr : Argon2Digest
  time_stamp_generacion : Nat
  time_stamp_vencimiento : Nat
  revoked : Nat
  resend_count : Nat
  last_resend_at : Option Nat
deriving DecidableEq, Repr

namespace CodeVerification

/-- `CodeVerification.mark_as_revoked` (code_verification.py lines 29-30). -/
def mark_as_revoked (self : CodeVerification) : CodeVerification :=
  { self with revoked := 1 }

/-- `CodeVerification.reset_resend_count` (code_verification.py lines 62-64). -/
def reset_resend_count (self : CodeVerification) : CodeVerification :=
  { self with resend_count := 0, last_resend_at := none }

/-- `CodeVerification.can_resend` (code_verification.py lines 32-56).
Returns the pair the source returns plus the in-memory state of `self` after
the call, because the hourly-cap branch mutates `self` via
`reset_resend_count`.  The source computes
`time_since_last = (now - last).total_seconds() / 60` and compares with
`CODE_RESEND_DELAY_MINUTES`; in seconds that is `now - last < 60 * delay`.
The reported wait is `int(delay - time_since_last) + 1`, a floor (the
argument is positive here) plus one: in seconds,
`(60 * delay - (now - last)) / 60 + 1` with truncating division.
The hourly cap compares `(now - gen).total_seconds() / 3600` with 1, i.e.
`now - gen < 3600`; the source's `if self.time_stamp_generacion:` guard is
always true (the column is non-nullable and a datetime is truthy). -/
def can_resend (st : Settings) (self : CodeVerification) (now : Nat) :
    Bool × String × CodeVerification :=
  let afterDelay : Bool × String × CodeVerification :=
    if st.CODE_MAX_RESEND_PER_HOUR ≤ self.resend_count then
      if now - self.time_stamp_generacion < 3600 then
        (false, msgHourlyCap, self)
      else
        (true, "", self.reset_resend_count)
    else
      (true, "", self)
  match self.last_resend_at with
  | some last =>
      if now - last < 60 * st.CODE_RESEND_DELAY_MINUTES then
        let wait_time := (60 * st.CODE_RESEND_DELAY_MINUTES - (now - last)) / 60 + 1
        (false, msgWait wait_time, self)
      else afterDelay
  | none => afterDelay

/-- `CodeVerification.create_code` (code_verification.py lines 72-88) with
`expiration_minutes = None`, so the settings TTL is used.  The source reads
the clock twice: `expires_at = datetime.utcnow() + timedelta(...)` first
(`tExp`), then `time_stamp_generacion=datetime.utcnow()` inside the
constructor call (`tGen`). -/
def create_code (st : Settings) (document_number : Nat) (correo : String)
    (movil : Nat) (pswr : Argon2Digest) (tExp tGen : Nat) : CodeVerification :=
  { id := document_number
    correo := correo
    movil := movil
    pswr := pswr
    time_stamp_generacion := tGen
    time_stamp_vencimiento := tExp + 60 * st.CODE_EXPIRATION_MINUTES
    revoked := 0
    resend_count := 0
    last_resend_at := none }

end CodeVerification

/-- One row of `dbo.stg_personal` as the service reads it (the columns named
in the two SQL queries of code_service.py).  `movil` and `dt_fin_contrato`
may be NULL; `dt_fin_contrato` is a date, modelled as a day number. -/
structure Personnel where
  nro_documento : String
  correo : String
  movil : Option Nat
  dt_fin_contrato : Option Nat
  ds_empleado : String
  ds_cargo : String
  cod_oficina_area : String
deriving DecidableEq, Repr

/-- The database state the service manipulates: the personnel table (read
only) and the `user_pswr` table. -/
structure DB where
  personal : List Personnel
  codes : List CodeVerification
deriving DecidableEq, Repr

/-- Python's `int(s)` on a digits-only document-number string. -/
def intOfDigits (s : String) : Nat :=
  s.data.foldl (fun a c => 10 * a + (c.toNat - 48)) 0

/-- Replace the first element satisfying `p` (the row returned by
`query(...).filter(...).first()`, mutated in place and committed). -/
def updateFirst (p : α → Bool) (f : α → α) : List α → List α
  | [] => []
  | a :: l => if p a then f a :: l else a :: updateFirst p f l

/-- Errors the service raises as `HTTPException`s, by the spec's taxonomy:
404 user-not-found, 403 contract-ended, 429 with its detail message. -/
inductive ApiError where
  | IdentityNotFound
  | IdentityInactive
  | TooManyRequests (detail : String)
deriving DecidableEq, Repr

/-- The `data` dict of a successful `validate_code` response
(code_service.py lines 186-192): each profile field is NULL when the
personnel row is absent at validation time. -/
structure ValidateData where
  document_number : String
  nombre : Option String
  correo : Option String
  cargo : Option String
  oficina : Option String
deriving DecidableEq, Repr

/-- The dict `validate_code` returns. -/
structure ValidateResult where
  success : Bool
  message : String
  data : Option ValidateData
deriving DecidableEq, Repr

/-- The dict `generate_code` returns (code_service.py lines 107-111). -/
structure GenerateResult where
  correo : String
  nombre : String
  code : String
deriving DecidableEq, Repr

namespace CodeService

/-- The update the source applies to an existing `user_pswr` row
(code_service.py lines 77-92), factored out of `generate_code`: contact
snapshot, new hash, fresh timestamps, `revoked = 0`; on a resend the counter
is incremented (`(resend_count or 0) + 1`, the `or 0` being the identity on
the non-nullable column) and `last_resend_at` set, otherwise both reset. -/
def overwriteRecord (st : Settings) (user : Personnel)
    (hashed_code : Argon2Digest) (is_resend : Bool) (t1 t2 t3 : Nat)
    (r : CodeVerification) : CodeVerification :=
  let r' := { r with
    correo := user.correo
    movil := user.movil.getD 0
    pswr := hashed_code
    time_stamp_generacion := t1
    time_stamp_vencimiento := t2 + 60 * st.CODE_EXPIRATION_MINUTES
    revoked := 0 }
  if is_resend then
    { r' with resend_count := r.resend_count + 1, last_resend_at := some t3 }
  else
    { r' with resend_count := 0, last_resend_at := none }

/-- `CodeService.generate_code` (code_service.py lines 29-123).
Parameters beyond the state: `today` is `datetime.utcnow().date()` of the
contract check; `code` and `salt` are the random draws; `t1 t2 t3` are the
successive `datetime.utcnow()` readings used for record timestamps, in call
order.  On the update path (record exists) the source sets
`time_stamp_generacion = utcnow()` (`t1`), then
`time_stamp_vencimiento = utcnow() + TTL` (`t2`), then, when `is_resend`,
`last_resend_at = utcnow()` (`t3`).  On the create path `create_code`
computes `expires_at` from its first reading (`t1`) and
`time_stamp_generacion` from its second (`t2`); `is_resend` does not touch
the created row, which starts with `resend_count = 0`. -/
def generate_code (st : Settings) (db : DB) (document_number : String)
    (is_resend : Bool) (today : Nat) (code : String) (salt : Nat)
    (t1 t2 t3 : Nat) : Except ApiError (GenerateResult × DB) :=
  match db.personal.find? (fun u => u.nro_documento == document_number) with
  | none => .error .IdentityNotFound
  | some user =>
    if (match user.dt_fin_contrato with
        | some d => decide (d < today)
        | none => false) then
      .error .IdentityInactive
    else
      let hashed_code := hash_code salt code
      let key := intOfDigits document_number
      match db.codes.find? (fun r => r.id == key) with
      | some _ =>
          let newCodes := updateFirst (fun r => r.id == key)
            (overwriteRecord st user hashed_code is_resend t1 t2 t3) db.codes
          .ok (⟨user.correo, user.ds_empleado, code⟩,
               { db with codes := newCodes })
      | none =>
          let inst := CodeVerification.create_code st key user.correo
            (user.movil.getD 0) hashed_code t1 t2
          .ok (⟨user.correo, user.ds_empleado, code⟩,
               { db with codes := db.codes ++ [inst] })

/-- `CodeService.validate_code` (code_service.py lines 125-203).  `now` is
the single `datetime.utcnow()` reading of the expiry check.  Checks run in
source order: record absent, `revoked != 0`, expired
(`time_stamp_vencimiento < now`), hash mismatch; then the row is revoked and
committed and the personnel row is looked up for the response data. -/
def validate_code (db : DB) (document_number : String) (code : String)
    (now : Nat) : ValidateResult × DB :=
  let key := intOfDigits document_number
  match db.codes.find? (fun r => r.id == key) with
  | none => (⟨false, msgCodeNotFound, none⟩, db)
  | some code_instance =>
    if code_instance.revoked ≠ 0 then
      (⟨false, msgCodeAlreadyUsed, none⟩, db)
    else if code_instance.time_stamp_vencimiento < now then
      (⟨false, msgCodeExpired, none⟩, db)
    else if ¬ verify_code_hash code code_instance.pswr then
      (⟨false, msgCodeIncorrect, none⟩, db)
    else
      let db' := { db with
        codes := updateFirst (fun r => r.id == key)
          CodeVerification.mark_as_revoked db.codes }
      let user := db.personal.find? (fun u => u.nro_documento == document_number)
      (⟨true, msgValidated,
        some { document_number := document_number
               nombre := user.map (·.ds_empleado)
               correo := user.map (·.correo)
               cargo := user.map (·.ds_cargo)
               oficina := user.map (·.cod_oficina_area) }⟩, db')

/-- `CodeService.resend_code` (code_service.py lines 205-251).  When a record
exists, `can_resend` runs first (`now` is its clock reading); a negative
answer raises 429 with the returned message.  Crucially the source then
closes the session WITHOUT committing (`db.close()`, line 232), so the
in-memory mutation `can_resend` may have made (the hourly-window counter
reset) is rolled back, and `generate_code` re-reads the unmodified state in
a fresh session: the unchanged `db` is what is passed on. -/
def resend_code (st : Settings) (db : DB) (document_number : String)
    (today : Nat) (code : String) (salt : Nat) (now t1 t2 t3 : Nat) :
    Except ApiError (GenerateResult × DB) :=
  match db.codes.find? (fun r => r.id == intOfDigits document_number) with
  | some existing_code =>
      let res := existing_code.can_resend st now
      if res.1 then
        generate_code st db document_number true today code salt t1 t2 t3
      else
        .error (.TooManyRequests res.2.1)
  | none =>
      generate_code st db document_number true today code salt t1 t2 t3

/-- `CodeService.cleanup_expired_codes` (code_service.py lines 253-274).
The delete filters on BOTH `time_stamp_vencimiento < utcnow()` AND
`revoked == 0`.  `storage_ok = false` models the persistence layer failing
(any exception): the handler rolls back and returns 0, never raising. -/
def cleanup_expired_codes (db : DB) (now : Nat) (storage_ok : Bool) :
    Nat × DB :=
  if storage_ok then
    let doomed := fun (r : CodeVerification) =>
      r.time_stamp_vencimiento < now && r.revoked == 0
    ((db.codes.filter doomed).length,
     { db with codes := db.codes.filter (fun r => ! doomed r) })
  else
    (0, db)

end CodeService

/-! ### Helper lemmas about the store primitives -/

/-- `updateFirst` rewrites the row `find?` returned; as long as the update
keeps the row's key, `find?` afterwards returns the updated row. -/
theorem find?_updateFirst {α : Type} (p : α → Bool) (f : α → α) (l : List α)
    (a : α) (h : l.find? p = some a) (hfa : p (f a) = true) :
    (updateFirst p f l).find? p = some (f a) := by
  induction l with
  | nil => simp [List.find?] at h
  | cons b l ih =>
      by_cases hb : p b = true
      · rw [List.find?_cons_of_pos _ hb] at h
        injection h with h
        subst h
        simp [updateFirst, hb, List.find?_cons_of_pos _ hfa]
      · rw [List.find?_cons_of_neg _ hb] at h
        simp only [updateFirst, if_neg hb]
        rw [List.find?_cons_of_neg _ hb]
        exact ih h

/-- A fresh row appended to a table without a matching row is what `find?`
returns afterwards. -/
theorem find?_append_right {α : Type} (p : α → Bool) (l : List α) (x : α)
    (h : l.find? p = none) (hx : p x = true) :
    (l ++ [x]).find? p = some x := by
  induction l with
  | nil => simp [List.find?, hx]
  | cons b l ih =>
      have hb : ¬ p b = true := by
        intro hb
        rw [List.find?_cons_of_pos _ hb] at h
        exact Option.noConfusion h
      rw [List.find?_cons_of_neg _ hb] at h
      rw [List.cons_append, List.find?_cons_of_neg _ hb]
      exact ih h

/-- `overwriteRecord` never changes the row's primary key. -/
theorem overwriteRecord_id (st : Settings) (user : Personnel)
    (hc : Argon2Digest) (is_resend : Bool) (t1 t2 t3 : Nat)
    (r : CodeVerification) :
    (CodeService.overwriteRecord st user hc is_resend t1 t2 t3 r).id = r.id := by
  cases is_resend <;> rfl

/-- Field values `overwriteRecord` writes. -/
theorem overwriteRecord_fields (st : Settings) (user : Personnel)
    (hc : Argon2Digest) (is_resend : Bool) (t1 t2 t3 : Nat)
    (r : CodeVerification) :
    (CodeService.overwriteRecord st user hc is_resend t1 t2 t3 r).pswr = hc ∧
    (CodeService.overwriteRecord st user hc is_resend t1 t2 t3 r).revoked = 0 ∧
    (CodeService.overwriteRecord st user hc is_resend t1 t2 t3 r).time_stamp_generacion = t1 ∧
    (CodeService.overwriteRecord st user hc is_resend t1 t2 t3 r).time_stamp_vencimiento
      = t2 + 60 * st.CODE_EXPIRATION_MINUTES := by
  cases is_resend <;> exact ⟨rfl, rfl, rfl, rfl⟩

/-- After a successful `generate_code`, the row at the identity's key exists
and carries the fresh hash, `revoked = 0`, and the timestamps written from
the operation's clock readings: `(t1, t2 + TTL)` on the update path,
`(t2, t1 + TTL)` on the create path.  The returned plaintext is the drawn
code. -/
theorem generate_code_finds (st : Settings) (db : DB) (doc : String)
    (is_resend : Bool) (today : Nat) (code : String) (salt : Nat)
    (t1 t2 t3 : Nat) (res : GenerateResult) (db' : DB)
    (h : CodeService.generate_code st db doc is_resend today code salt t1 t2 t3
          = .ok (res, db')) :
    res.code = code ∧ db'.personal = db.personal ∧
    ∃ rec : CodeVerification,
      db'.codes.find? (fun r => r.id == intOfDigits doc) = some rec ∧
      rec.pswr = ⟨salt, code⟩ ∧ rec.revoked = 0 ∧
      ((rec.time_stamp_generacion = t1 ∧
          rec.time_stamp_vencimiento = t2 + 60 * st.CODE_EXPIRATION_MINUTES) ∨
       (rec.time_stamp_generacion = t2 ∧
          rec.time_stamp_vencimiento = t1 + 60 * st.CODE_EXPIRATION_MINUTES)) := by
  simp only [CodeService.generate_code] at h
  split at h
  · exact Except.noConfusion h
  · rename_i user hp
    split at h
    · exact Except.noConfusion h
    · split at h
      · rename_i old hc
        injection h with h
        injection h with h1 h2
        subst h1
        subst h2
        refine ⟨rfl, rfl,
          CodeService.overwriteRecord st user (CodeService.hash_code salt code)
            is_resend t1 t2 t3 old, ?_, ?_, ?_, ?_⟩
        · exact find?_updateFirst _ _ _ _ hc
            (by rw [overwriteRecord_id]; simpa using List.find?_some hc)
        · exact (overwriteRecord_fields ..).1
        · exact (overwriteRecord_fields ..).2.1
        · exact Or.inl ⟨(overwriteRecord_fields ..).2.2.1,
            (overwriteRecord_fields ..).2.2.2⟩
      · rename_i hc
        injection h with h
        injection h with h1 h2
        subst h1
        subst h2
        refine ⟨rfl, rfl,
          CodeVerification.create_code st (intOfDigits doc) user.correo
            (user.movil.getD 0) (CodeService.hash_code salt code) t1 t2,
          ?_, rfl, rfl, Or.inr ⟨rfl, rfl⟩⟩
        exact find?_append_right _ _ _ hc (by simp [CodeVerification.create_code])

/-- A successful `resend_code` is exactly a successful `generate_code` with
`is_resend = true` on the unmodified state: the throttle session is closed
without commit, so nothing it did survives. -/
theorem resend_code_ok (st : Settings) (db : DB) (doc : String)
    (today : Nat) (code : String) (salt : Nat) (now t1 t2 t3 : Nat)
    (r : GenerateResult × DB)
    (h : CodeService.resend_code st db doc today code salt now t1 t2 t3 = .ok r) :
    CodeService.generate_code st db doc true today code salt t1 t2 t3 = .ok r := by
  simp only [CodeService.resend_code] at h
  split at h
  · split at h
    · exact h
    · exact Except.noConfusion h
  · exact h

/-! ### The claims -/

/-- Claim C7: `verify` of a plaintext against its own `hash` is always true,
and `verify` of any other plaintext against that hash is always false, for
every salt draw.  Both operations are pure functions in the embedding, as
the source's are `@staticmethod`s that touch no stored state. -/
theorem hash_code_round_trip (salt : Nat) (p q : String) :
    CodeService.verify_code_hash p (CodeService.hash_code salt p) = true ∧
    (q ≠ p → CodeService.verify_code_hash q (CodeService.hash_code salt p) = false) := by
  constructor
  · simp [CodeService.verify_code_hash, CodeService.hash_code, argon2verify,
      argon2hash]
  · intro hne
    simp only [CodeService.verify_code_hash, CodeService.hash_code,
      argon2verify, argon2hash]
    exact beq_eq_false_iff_ne.mpr (fun h => hne h.symm)

/-- Claim C7 witness at salt 0, plaintext `123456`, wrong code `000000`. -/
theorem hash_code_round_trip_witness :
    CodeService.verify_code_hash "123456" (CodeService.hash_code 0 "123456") = true ∧
    CodeService.verify_code_hash "000000" (CodeService.hash_code 0 "123456") = false :=
  ⟨(hash_code_round_trip 0 "123456" "000000").1,
   (hash_code_round_trip 0 "123456" "000000").2 (by decide)⟩

/-- Claim C10: `cleanup_expired_codes` never raises; any storage failure is
caught, the transaction rolled back (state unchanged) and 0 returned — the
same value a successful sweep returns when no record was both expired and
unused, so the return value cannot distinguish the two. -/
theorem cleanup_expired_codes_never_raises (db : DB) (now : Nat) :
    CodeService.cleanup_expired_codes db now false = (0, db) ∧
    ((∀ r ∈ db.codes, ¬ (r.time_stamp_vencimiento < now ∧ r.revoked = 0)) →
       CodeService.cleanup_expired_codes db now true = (0, db)) := by
  constructor
  · rfl
  · intro hnone
    simp only [CodeService.cleanup_expired_codes, if_true]
    have h1 : db.codes.filter
        (fun r => r.time_stamp_vencimiento < now && r.revoked == 0) = [] := by
      rw [List.filter_eq_nil_iff]
      intro a ha
      simp only [Bool.and_eq_true, decide_eq_true_eq, beq_iff_eq]
      exact fun hcon => hnone a ha ⟨hcon.1, hcon.2⟩
    have h2 : db.codes.filter
        (fun r => ! (r.time_stamp_vencimiento < now && r.revoked == 0)) = db.codes := by
      rw [List.filter_eq_self]
      intro a ha
      simp only [Bool.not_eq_true', Bool.and_eq_true, decide_eq_true_eq,
        beq_iff_eq, Bool.and_eq_false_iff]
      by_cases hlt : a.time_stamp_vencimiento < now
      · have := hnone a ha
        simp only [hlt, true_and] at this
        simp [this]
      · simp [hlt]
    rw [h1, h2]
    rfl

/-- Claim C10 witness: a store holding one unexpired record; a failed sweep
and a successful sweep that found nothing doomed both return 0 with the
store intact. -/
theorem cleanup_expired_codes_never_raises_witness :
    CodeService.cleanup_expired_codes
        ⟨[], [⟨1, "a", 0, ⟨0, "x"⟩, 0, 500, 0, 0, none⟩]⟩ 100 false
      = (0, ⟨[], [⟨1, "a", 0, ⟨0, "x"⟩, 0, 500, 0, 0, none⟩]⟩) ∧
    CodeService.cleanup_expired_codes
        ⟨[], [⟨1, "a", 0, ⟨0, "x"⟩, 0, 500, 0, 0, none⟩]⟩ 100 true
      = (0, ⟨[], [⟨1, "a", 0, ⟨0, "x"⟩, 0, 500, 0, 0, none⟩]⟩) :=
  ⟨(cleanup_expired_codes_never_raises
      ⟨[], [⟨1, "a", 0, ⟨0, "x"⟩, 0, 500, 0, 0, none⟩]⟩ 100).1,
   (cleanup_expired_codes_never_raises
      ⟨[], [⟨1, "a", 0, ⟨0, "x"⟩, 0, 500, 0, 0, none⟩]⟩ 100).2 (by decide)⟩

/-- Claim C4 counterexample: a record that is expired (`expires_at = 50`,
swept at `now = 100`) but already used (`revoked = 1`) is NOT deleted by the
sweep — the delete also filters on `revoked == 0` — so the sweep does not
delete every record whose expiry lies in the past, and the returned count
is 0, not 1. -/
theorem cleanup_spares_used_expired :
    CodeService.cleanup_expired_codes
        ⟨[], [⟨1, "a", 0, ⟨0, "x"⟩, 0, 50, 1, 0, none⟩]⟩ 100 true
      = (0, ⟨[], [⟨1, "a", 0, ⟨0, "x"⟩, 0, 50, 1, 0, none⟩]⟩) ∧
    (50 : Nat) < 100 := by
  decide

/-- Claim C4 as amended: a sweep deletes exactly the records that are both
expired and unused (`revoked = 0`) at its read, returns their number, keeps
every other record (in particular every unexpired one and every expired
used one) unchanged, and never touches the personnel table. -/
theorem cleanup_deletes_expired_unused (db : DB) (now : Nat) (n : Nat)
    (db' : DB)
    (h : CodeService.cleanup_expired_codes db now true = (n, db')) :
    db'.personal = db.personal ∧
    (∀ r ∈ db.codes, r.time_stamp_vencimiento < now → r.revoked = 0 →
       r ∉ db'.codes) ∧
    (∀ r ∈ db.codes, ¬ (r.time_stamp_vencimiento < now ∧ r.revoked = 0) →
       r ∈ db'.codes) ∧
    (∀ r ∈ db'.codes, r ∈ db.codes) ∧
    n + db'.codes.length = db.codes.length := by
  simp only [CodeService.cleanup_expired_codes, if_true] at h
  injection h with h1 h2
  subst h1
  subst h2
  refine ⟨rfl, ?_, ?_, ?_, ?_⟩
  · intro r hr hlt hrev hmem
    have := (List.mem_filter.mp hmem).2
    simp only [Bool.not_eq_true', Bool.and_eq_false_iff, decide_eq_false_iff_not,
      beq_eq_false_iff_ne] at this
    rcases this with hbad | hbad
    · exact hbad hlt
    · exact hbad hrev
  · intro r hr hnot
    refine List.mem_filter.mpr ⟨hr, ?_⟩
    simp only [Bool.not_eq_true', Bool.and_eq_false_iff, decide_eq_false_iff_not,
      beq_eq_false_iff_ne]
    by_cases hlt : r.time_stamp_vencimiento < now
    · exact Or.inr (fun hrev => hnot ⟨hlt, hrev⟩)
    · exact Or.inl hlt
  · intro r hmem
    exact (List.mem_filter.mp hmem).1
  · have := List.length_eq_length_filter_add
      (l := db.codes)
      (fun r => decide (r.time_stamp_vencimiento < now) && r.revoked == 0)
    simpa [Nat.add_comm] using this.symm

/-- Claim C4 amended witness: a store with one expired unused and one
expired used record; the sweep removes exactly the unused one. -/
theorem cleanup_deletes_expired_unused_witness :
    ((⟨2, "a", 0, ⟨0, "x"⟩, 0, 50, 0, 0, none⟩ : CodeVerification) ∉
       (⟨[], [⟨1, "a", 0, ⟨0, "x"⟩, 0, 50, 1, 0, none⟩]⟩ : DB).codes) ∧
    ((⟨1, "a", 0, ⟨0, "x"⟩, 0, 50, 1, 0, none⟩ : CodeVerification) ∈
       (⟨[], [⟨1, "a", 0, ⟨0, "x"⟩, 0, 50, 1, 0, none⟩]⟩ : DB).codes) :=
  ⟨(cleanup_deletes_expired_unused
      ⟨[], [⟨1, "a", 0, ⟨0, "x"⟩, 0, 50, 1, 0, none⟩,
            ⟨2, "a", 0, ⟨0, "x"⟩, 0, 50, 0, 0, none⟩]⟩ 100 1
      ⟨[], [⟨1, "a", 0, ⟨0, "x"⟩, 0, 50, 1, 0, none⟩]⟩ rfl).2.1
      ⟨2, "a", 0, ⟨0, "x"⟩, 0, 50, 0, 0, none⟩ (by decide) (by decide) rfl,
   (cleanup_deletes_expired_unused
      ⟨[], [⟨1, "a", 0, ⟨0, "x"⟩, 0, 50, 1, 0, none⟩,
            ⟨2, "a", 0, ⟨0, "x"⟩, 0, 50, 0, 0, none⟩]⟩ 100 1
      ⟨[], [⟨1, "a", 0, ⟨0, "x"⟩, 0, 50, 1, 0, none⟩]⟩ rfl).2.2.1
      ⟨1, "a", 0, ⟨0, "x"⟩, 0, 50, 1, 0, none⟩ (by decide) (by decide)⟩

/-- Claim C5 counterexample: `generate_code` reads the clock separately for
`issued_at` and for the expiry computation.  Here the two readings are 1000
and 1001 (a one-second advance on the create path, where the expiry base is
read first): the stored record has `issued_at = 1001` but
`expires_at = 1000 + 30*60 = 2800 ≠ 1001 + 30*60`, so `expires_at` is NOT
`issued_at` plus exactly the configured TTL. -/
theorem expiry_not_exactly_ttl_after_issued :
    CodeService.generate_code ⟨30, 2, 5⟩
        ⟨[⟨"123", "a@b.c", some 5, none, "Ana", "Eng", "OF1"⟩], []⟩
        "123" false 0 "123456" 7 1000 1001 0
      = .ok (⟨"a@b.c", "Ana", "123456"⟩,
             ⟨[⟨"123", "a@b.c", some 5, none, "Ana", "Eng", "OF1"⟩],
              [⟨123, "a@b.c", 5, ⟨7, "123456"⟩, 1001, 2800, 0, 0, none⟩]⟩) ∧
    (2800 : Nat) ≠ 1001 + 60 * 30 :=
  ⟨rfl, by decide⟩

/-- Claim C5 as amended: whenever the operation's clock readings coincide
(the idealisation the claim makes — the source reads `utcnow()` separately
for the two fields), every record written or overwritten by `generate_code`
or by a successful `resend_code` satisfies
`expires_at = issued_at + TTL` exactly, hence lies strictly after
`issued_at` whenever the configured TTL is positive. -/
theorem expiry_is_ttl_when_clock_coincides (st : Settings) (db : DB)
    (doc : String) (is_resend : Bool) (today : Nat) (code : String)
    (salt : Nat) (t t3 now : Nat) (res : GenerateResult) (db' : DB)
    (h : CodeService.generate_code st db doc is_resend today code salt t t t3
           = .ok (res, db') ∨
         CodeService.resend_code st db doc today code salt now t t t3
           = .ok (res, db'))
    (rec : CodeVerification)
    (hrec : db'.codes.find? (fun r => r.id == intOfDigits doc) = some rec) :
    rec.time_stamp_vencimiento
      = rec.time_stamp_generacion + 60 * st.CODE_EXPIRATION_MINUTES ∧
    (0 < st.CODE_EXPIRATION_MINUTES →
       rec.time_stamp_generacion < rec.time_stamp_vencimiento) := by
  have main : ∀ b : Bool,
      CodeService.generate_code st db doc b today code salt t t t3
        = .ok (res, db') →
      rec.time_stamp_vencimiento
        = rec.time_stamp_generacion + 60 * st.CODE_EXPIRATION_MINUTES ∧
      (0 < st.CODE_EXPIRATION_MINUTES →
        rec.time_stamp_generacion < rec.time_stamp_vencimiento) := by
    intro b hg
    obtain ⟨-, -, rec', hfind, -, -, hts⟩ :=
      generate_code_finds st db doc b today code salt t t t3 res db' hg
    have hrr : rec' = rec := by
      rw [hrec] at hfind
      exact (Option.some.inj hfind).symm
    subst hrr
    rcases hts with ⟨h1, h2⟩ | ⟨h1, h2⟩ <;>
      exact ⟨by omega, fun hp => by omega⟩
  rcases h with hg | hr
  · exact main is_resend hg
  · exact main true (resend_code_ok st db doc today code salt now t t t3 _ hr)

/-- Claim C5 amended witness: a fresh generate with coincident clock
readings at 1000 yields `expires_at = 2800 = 1000 + 30*60 = issued_at + TTL`. -/
theorem expiry_is_ttl_when_clock_coincides_witness :
    (2800 : Nat) = 1000 + 60 * 30 ∧ ((0 : Nat) < 30 → (1000 : Nat) < 2800) := by
  have := expiry_is_ttl_when_clock_coincides ⟨30, 2, 5⟩
    ⟨[⟨"123", "a@b.c", some 5, none, "Ana", "Eng", "OF1"⟩], []⟩
    "123" false 0 "123456" 7 1000 0 0 ⟨"a@b.c", "Ana", "123456"⟩
    ⟨[⟨"123", "a@b.c", some 5, none, "Ana", "Eng", "OF1"⟩],
     [⟨123, "a@b.c", 5, ⟨7, "123456"⟩, 1000, 2800, 0, 0, none⟩]⟩
    (Or.inl rfl) ⟨123, "a@b.c", 5, ⟨7, "123456"⟩, 1000, 2800, 0, 0, none⟩ rfl
  exact this

/-- Claim C2: `validate_code` decides its outcome by checks in the source's
fixed order — no record: not-found; else `used` (`revoked ≠ 0`):
already-used, regardless of expiry, so a record both used and expired
reports already-used; else expired (`expires_at < now`): expired; else hash
mismatch: incorrect.  Conversely the incorrect outcome arises only for an
unused, unexpired record with a failing hash check — the same outcome for
every wrong code, whatever digits match.  Failure outcomes never change the
store. -/
theorem validate_code_check_order (db : DB) (doc code : String) (now : Nat) :
    (db.codes.find? (fun r => r.id == intOfDigits doc) = none →
       CodeService.validate_code db doc code now
         = (⟨false, msgCodeNotFound, none⟩, db)) ∧
    (∀ ci, db.codes.find? (fun r => r.id == intOfDigits doc) = some ci →
       (ci.revoked ≠ 0 →
          CodeService.validate_code db doc code now
            = (⟨false, msgCodeAlreadyUsed, none⟩, db)) ∧
       (ci.revoked = 0 → ci.time_stamp_vencimiento < now →
          CodeService.validate_code db doc code now
            = (⟨false, msgCodeExpired, none⟩, db)) ∧
       (ci.revoked = 0 → ¬ ci.time_stamp_vencimiento < now →
          CodeService.verify_code_hash code ci.pswr = false →
          CodeService.validate_code db doc code now
            = (⟨false, msgCodeIncorrect, none⟩, db))) ∧
    ((CodeService.validate_code db doc code now).1.message = msgCodeIncorrect →
       ∃ ci, db.codes.find? (fun r => r.id == intOfDigits doc) = some ci ∧
         ci.revoked = 0 ∧ ¬ ci.time_stamp_vencimiento < now ∧
         CodeService.verify_code_hash code ci.pswr = false) := by
  have hnone : db.codes.find? (fun r => r.id == intOfDigits doc) = none →
      CodeService.validate_code db doc code now
        = (⟨false, msgCodeNotFound, none⟩, db) := by
    intro hn
    simp only [CodeService.validate_code]
    rw [hn]
  have hused : ∀ ci, db.codes.find? (fun r => r.id == intOfDigits doc) = some ci →
      ci.revoked ≠ 0 →
      CodeService.validate_code db doc code now
        = (⟨false, msgCodeAlreadyUsed, none⟩, db) := by
    intro ci hc hr
    simp only [CodeService.validate_code]
    rw [hc]
    simp [hr]
  have hexp : ∀ ci, db.codes.find? (fun r => r.id == intOfDigits doc) = some ci →
      ci.revoked = 0 → ci.time_stamp_vencimiento < now →
      CodeService.validate_code db doc code now
        = (⟨false, msgCodeExpired, none⟩, db) := by
    intro ci hc hr he
    simp only [CodeService.validate_code]
    rw [hc]
    simp [hr, he]
  have hinc : ∀ ci, db.codes.find? (fun r => r.id == intOfDigits doc) = some ci →
      ci.revoked = 0 → ¬ ci.time_stamp_vencimiento < now →
      CodeService.verify_code_hash code ci.pswr = false →
      CodeService.validate_code db doc code now
        = (⟨false, msgCodeIncorrect, none⟩, db) := by
    intro ci hc hr he hm
    simp only [CodeService.validate_code]
    rw [hc]
    simp [hr, he, hm]
  have hsucc : ∀ ci, db.codes.find? (fun r => r.id == intOfDigits doc) = some ci →
      ci.revoked = 0 → ¬ ci.time_stamp_vencimiento < now →
      CodeService.verify_code_hash code ci.pswr = true →
      (CodeService.validate_code db doc code now).1.message = msgValidated := by
    intro ci hc hr he hm
    simp only [CodeService.validate_code]
    rw [hc]
    simp [hr, he, hm]
  refine ⟨hnone, fun ci hc => ⟨hused ci hc, hexp ci hc, hinc ci hc⟩, ?_⟩
  intro hmsg
  cases hfind : db.codes.find? (fun r => r.id == intOfDigits doc) with
  | none =>
      rw [hnone hfind] at hmsg
      have hmsg' : msgCodeNotFound = msgCodeIncorrect := hmsg
      exact absurd hmsg' (by decide)
  | some ci =>
      by_cases hr : ci.revoked = 0
      · by_cases he : ci.time_stamp_vencimiento < now
        · rw [hexp ci hfind hr he] at hmsg
          have hmsg' : msgCodeExpired = msgCodeIncorrect := hmsg
          exact absurd hmsg' (by decide)
        · cases hm : CodeService.verify_code_hash code ci.pswr with
          | false => exact ⟨ci, rfl, hr, he, hm⟩
          | true =>
              rw [hsucc ci hfind hr he hm] at hmsg
              have hmsg' : msgValidated = msgCodeIncorrect := hmsg
              exact absurd hmsg' (by decide)
      · rw [hused ci hfind hr] at hmsg
        have hmsg' : msgCodeAlreadyUsed = msgCodeIncorrect := hmsg
        exact absurd hmsg' (by decide)

/-- Claim C2 witness: a record both used (`revoked = 1`) and expired
(`expires_at = 5 < now = 7`) reports already-used, not expired. -/
theorem validate_code_check_order_witness :
    CodeService.validate_code
        ⟨[], [⟨9, "a", 0, ⟨0, "c"⟩, 0, 5, 1, 0, none⟩]⟩ "9" "c" 7
      = (⟨false, msgCodeAlreadyUsed, none⟩,
         ⟨[], [⟨9, "a", 0, ⟨0, "c"⟩, 0, 5, 1, 0, none⟩]⟩) ∧ (5 : Nat) < 7 :=
  ⟨((validate_code_check_order
      ⟨[], [⟨9, "a", 0, ⟨0, "c"⟩, 0, 5, 1, 0, none⟩]⟩ "9" "c" 7).2.1
      ⟨9, "a", 0, ⟨0, "c"⟩, 0, 5, 1, 0, none⟩ rfl).1 (by decide),
   by decide⟩

/-- Claim C1: when `validate_code` succeeds, the stored record ends with
`revoked = 1`, and from that state every further `validate_code` for the
identity — any submitted code at any time, including the same correct code
while the record is unexpired — returns the already-used outcome and leaves
the store untouched; and a subsequent successful `generate_code` or
`resend_code` overwrites the record back to `revoked = 0`, lifting the
block. -/
theorem validate_code_success_terminal (db : DB) (doc code : String)
    (now : Nat) (res : ValidateResult) (db' : DB)
    (hv : CodeService.validate_code db doc code now = (res, db'))
    (hs : res.success = true) :
    (∃ rec, db'.codes.find? (fun r => r.id == intOfDigits doc) = some rec ∧
       rec.revoked = 1) ∧
    (∀ code2 now2, CodeService.validate_code db' doc code2 now2
        = (⟨false, msgCodeAlreadyUsed, none⟩, db')) ∧
    (∀ st is_resend today code3 salt t1 t2 t3 res3 db3,
       CodeService.generate_code st db' doc is_resend today code3 salt t1 t2 t3
           = .ok (res3, db3) →
       ∃ rec, db3.codes.find? (fun r => r.id == intOfDigits doc) = some rec ∧
         rec.revoked = 0) ∧
    (∀ st today code3 salt now3 t1 t2 t3 res3 db3,
       CodeService.resend_code st db' doc today code3 salt now3 t1 t2 t3
           = .ok (res3, db3) →
       ∃ rec, db3.codes.find? (fun r => r.id == intOfDigits doc) = some rec ∧
         rec.revoked = 0) := by
  simp only [CodeService.validate_code] at hv
  cases hfind : db.codes.find? (fun r => r.id == intOfDigits doc) with
  | none =>
      simp only [hfind] at hv
      injection hv with h1 h2
      subst h1
      exact absurd hs (by decide)
  | some ci =>
      simp only [hfind] at hv
      by_cases hr : ci.revoked = 0
      · by_cases he : ci.time_stamp_vencimiento < now
        · rw [if_neg (by simp [hr]), if_pos he] at hv
          injection hv with h1 h2
          subst h1
          exact absurd hs (by decide)
        · by_cases hm : CodeService.verify_code_hash code ci.pswr = true
          · rw [if_neg (by simp [hr]), if_neg he, if_neg (by simp [hm])] at hv
            injection hv with h1 h2
            subst h2
            have hfind' : (updateFirst (fun r => r.id == intOfDigits doc)
                  CodeVerification.mark_as_revoked db.codes).find?
                  (fun r => r.id == intOfDigits doc)
                = some ci.mark_as_revoked :=
              find?_updateFirst _ _ _ _ hfind
                (by
                  show (ci.mark_as_revoked.id == intOfDigits doc) = true
                  have : (ci.id == intOfDigits doc) = true := by
                    simpa using List.find?_some hfind
                  simpa [CodeVerification.mark_as_revoked] using this)
            refine ⟨⟨ci.mark_as_revoked, hfind', rfl⟩, ?_, ?_, ?_⟩
            · intro code2 now2
              simp only [CodeService.validate_code]
              rw [hfind']
              simp [CodeVerification.mark_as_revoked]
            · intro st is_resend today code3 salt t1 t2 t3 res3 db3 hg
              obtain ⟨-, -, rec, hf, -, hrev, -⟩ :=
                generate_code_finds st _ doc is_resend today code3 salt
                  t1 t2 t3 res3 db3 hg
              exact ⟨rec, hf, hrev⟩
            · intro st today code3 salt now3 t1 t2 t3 res3 db3 hrs
              obtain ⟨-, -, rec, hf, -, hrev, -⟩ :=
                generate_code_finds st _ doc true today code3 salt
                  t1 t2 t3 res3 db3
                  (resend_code_ok st _ doc today code3 salt now3 t1 t2 t3 _ hrs)
              exact ⟨rec, hf, hrev⟩
          · rw [if_neg (by simp [hr]), if_neg he,
              if_pos (by simpa using hm)] at hv
            injection hv with h1 h2
            subst h1
            exact absurd hs (by decide)
      · rw [if_pos hr] at hv
        injection hv with h1 h2
        subst h1
        exact absurd hs (by decide)

/-- Claim C1 witness: after a successful validation at time 5 the record is
revoked, and resubmitting the same correct code at time 6 (record unexpired
until 1800) reports already-used. -/
theorem validate_code_success_terminal_witness :
    (∃ rec, (⟨[], [⟨123, "a", 0, ⟨7, "c"⟩, 0, 1800, 1, 0, none⟩]⟩ : DB).codes.find?
        (fun r => r.id == intOfDigits "123") = some rec ∧ rec.revoked = 1) ∧
    CodeService.validate_code
        ⟨[], [⟨123, "a", 0, ⟨7, "c"⟩, 0, 1800, 1, 0, none⟩]⟩ "123" "c" 6
      = (⟨false, msgCodeAlreadyUsed, none⟩,
         ⟨[], [⟨123, "a", 0, ⟨7, "c"⟩, 0, 1800, 1, 0, none⟩]⟩) :=
  ⟨(validate_code_success_terminal
      ⟨[], [⟨123, "a", 0, ⟨7, "c"⟩, 0, 1800, 0, 0, none⟩]⟩ "123" "c" 5
      ⟨true, msgValidated, some ⟨"123", none, none, none, none⟩⟩
      ⟨[], [⟨123, "a", 0, ⟨7, "c"⟩, 0, 1800, 1, 0, none⟩]⟩ rfl rfl).1,
   (validate_code_success_terminal
      ⟨[], [⟨123, "a", 0, ⟨7, "c"⟩, 0, 1800, 0, 0, none⟩]⟩ "123" "c" 5
      ⟨true, msgValidated, some ⟨"123", none, none, none, none⟩⟩
      ⟨[], [⟨123, "a", 0, ⟨7, "c"⟩, 0, 1800, 1, 0, none⟩]⟩ rfl rfl).2.1 "c" 6⟩

/-- Claim C9: when every check passes but the personnel row for the identity
is absent at validation time, `validate_code` still marks the record used
and returns success with every profile field null. -/
theorem validate_code_success_without_personnel (db : DB) (doc code : String)
    (now : Nat) (ci : CodeVerification)
    (hc : db.codes.find? (fun r => r.id == intOfDigits doc) = some ci)
    (hr : ci.revoked = 0) (he : ¬ ci.time_stamp_vencimiento < now)
    (hm : CodeService.verify_code_hash code ci.pswr = true)
    (hp : db.personal.find? (fun u => u.nro_documento == doc) = none) :
    CodeService.validate_code db doc code now
      = (⟨true, msgValidated, some ⟨doc, none, none, none, none⟩⟩,
         { db with codes := updateFirst (fun r => r.id == intOfDigits doc)
                     CodeVerification.mark_as_revoked db.codes }) ∧
    (updateFirst (fun r => r.id == intOfDigits doc)
        CodeVerification.mark_as_revoked db.codes).find?
        (fun r => r.id == intOfDigits doc) = some ci.mark_as_revoked ∧
    ci.mark_as_revoked.revoked = 1 := by
  refine ⟨?_, ?_, rfl⟩
  · simp only [CodeService.validate_code]
    rw [hc]
    simp [hr, he, hm, hp]
  · exact find?_updateFirst _ _ _ _ hc
      (by
        show (ci.mark_as_revoked.id == intOfDigits doc) = true
        have : (ci.id == intOfDigits doc) = true := by
          simpa using List.find?_some hc
        simpa [CodeVerification.mark_as_revoked] using this)

/-- Claim C9 witness: the personnel table is empty, yet the correct code
validates with success and all-null profile data, and the record is
revoked. -/
theorem validate_code_success_without_personnel_witness :
    CodeService.validate_code
        ⟨[], [⟨123, "a", 0, ⟨7, "c"⟩, 0, 1800, 0, 0, none⟩]⟩ "123" "c" 5
      = (⟨true, msgValidated, some ⟨"123", none, none, none, none⟩⟩,
         ⟨[], [⟨123, "a", 0, ⟨7, "c"⟩, 0, 1800, 1, 0, none⟩]⟩) :=
  (validate_code_success_without_personnel
    ⟨[], [⟨123, "a", 0, ⟨7, "c"⟩, 0, 1800, 0, 0, none⟩]⟩ "123" "c" 5
    ⟨123, "a", 0, ⟨7, "c"⟩, 0, 1800, 0, 0, none⟩
    rfl rfl (by decide) rfl rfl).1

/-- Claim C6 counterexample: record with `last_resend_at = 0`, resend at
`now = 60` with the default 2-minute delay.  The remaining wait is exactly
60 seconds = 1 whole minute, so "rounded up to whole minutes" is 1; but the
source computes `int(delay - elapsed) + 1 = int(2 - 1) + 1 = 2` and reports
a 2-minute wait. -/
theorem resend_wait_not_rounded_up :
    CodeService.resend_code ⟨30, 2, 5⟩
        ⟨[], [⟨123, "a", 0, ⟨7, "x"⟩, 0, 1800, 0, 1, some 0⟩]⟩
        "123" 0 "1" 8 60 60 60 60
      = .error (.TooManyRequests (msgWait 2)) ∧
    (60 * 2 - (60 - 0) + 59) / 60 = 1 ∧ msgWait 2 ≠ msgWait 1 := by
  refine ⟨rfl, by decide, by decide⟩

/-- Claim C6 as amended: while `now - last_resend_at` is below the
configured delay, `resend_code` fails with `TooManyRequests`, reporting a
wait of `floor(remaining minutes) + 1` — which equals the remaining wait
rounded up to whole minutes whenever the remainder is not an exact number
of whole minutes, and is one minute larger when it is exact. -/
theorem resend_within_delay_rejected (st : Settings) (db : DB) (doc : String)
    (rec : CodeVerification) (today : Nat) (code : String)
    (salt now t1 t2 t3 last : Nat)
    (hfind : db.codes.find? (fun r => r.id == intOfDigits doc) = some rec)
    (hlast : rec.last_resend_at = some last)
    (hlt : now - last < 60 * st.CODE_RESEND_DELAY_MINUTES) :
    CodeService.resend_code st db doc today code salt now t1 t2 t3
      = .error (.TooManyRequests
          (msgWait ((60 * st.CODE_RESEND_DELAY_MINUTES - (now - last)) / 60 + 1))) ∧
    (¬ (60 ∣ (60 * st.CODE_RESEND_DELAY_MINUTES - (now - last))) →
       (60 * st.CODE_RESEND_DELAY_MINUTES - (now - last)) / 60 + 1
         = (60 * st.CODE_RESEND_DELAY_MINUTES - (now - last) + 59) / 60) := by
  constructor
  · simp only [CodeService.resend_code]
    rw [hfind]
    simp only [CodeVerification.can_resend, hlast, if_pos hlt]
    rfl
  · intro hnd
    omega

/-- Claim C6 amended witness: `last_resend_at = 0`, resend at `now = 30`
(remaining 90 s, not a whole number of minutes): rejected reporting
`90 / 60 + 1 = 2` minutes, which equals the round-up `(90 + 59) / 60 = 2`. -/
theorem resend_within_delay_rejected_witness :
    CodeService.resend_code ⟨30, 2, 5⟩
        ⟨[], [⟨123, "a", 0, ⟨7, "x"⟩, 0, 1800, 0, 1, some 0⟩]⟩
        "123" 0 "1" 8 30 30 30 30
      = .error (.TooManyRequests (msgWait ((60 * 2 - (30 - 0)) / 60 + 1))) ∧
    (60 * 2 - (30 - 0)) / 60 + 1 = (60 * 2 - (30 - 0) + 59) / 60 :=
  ⟨(resend_within_delay_rejected ⟨30, 2, 5⟩
      ⟨[], [⟨123, "a", 0, ⟨7, "x"⟩, 0, 1800, 0, 1, some 0⟩]⟩ "123"
      ⟨123, "a", 0, ⟨7, "x"⟩, 0, 1800, 0, 1, some 0⟩ 0 "1" 8 30 30 30 30 0
      rfl rfl (by decide)).1,
   (resend_within_delay_rejected ⟨30, 2, 5⟩
      ⟨[], [⟨123, "a", 0, ⟨7, "x"⟩, 0, 1800, 0, 1, some 0⟩]⟩ "123"
      ⟨123, "a", 0, ⟨7, "x"⟩, 0, 1800, 0, 1, some 0⟩ 0 "1" 8 30 30 30 30 0
      rfl rfl (by decide)).2 (by decide)⟩

/-- Claim C8: all three operations address the `user_pswr` row through
`int(document_number)`, so two digit strings with the same integer value
(e.g. differing in leading zeros) hit the same record: the row lookup is
identical, `validate_code` under either string takes the same branch and
leaves the same store (its success never depends on the string beyond its
integer value), and a code generated under one string validates
successfully under the other while the record is unexpired. -/
theorem record_key_is_integer_value (st : Settings) (db : DB)
    (s1 s2 : String)
    (hd1 : s1.data.all Char.isDigit = true)
    (hd2 : s2.data.all Char.isDigit = true)
    (hk : intOfDigits s1 = intOfDigits s2) :
    (db.codes.find? (fun r => r.id == intOfDigits s1)
       = db.codes.find? (fun r => r.id == intOfDigits s2)) ∧
    (∀ c n, ((CodeService.validate_code db s1 c n).1.success
               = (CodeService.validate_code db s2 c n).1.success) ∧
            ((CodeService.validate_code db s1 c n).2.codes
               = (CodeService.validate_code db s2 c n).2.codes)) ∧
    (∀ is_resend today code salt t1 t2 t3 res db' now,
       CodeService.generate_code st db s1 is_resend today code salt t1 t2 t3
           = .ok (res, db') →
       now ≤ t1 + 60 * st.CODE_EXPIRATION_MINUTES →
       now ≤ t2 + 60 * st.CODE_EXPIRATION_MINUTES →
       (CodeService.validate_code db' s2 res.code now).1.success = true) := by
  refine ⟨by rw [hk], ?_, ?_⟩
  · intro c n
    simp only [CodeService.validate_code, hk]
    cases hfind : db.codes.find? (fun r => r.id == intOfDigits s2) with
    | none => exact ⟨rfl, rfl⟩
    | some ci =>
        by_cases hr : ci.revoked ≠ 0
        · simp [hr]
        · by_cases he : ci.time_stamp_vencimiento < n
          · simp [hr, he]
          · by_cases hm : CodeService.verify_code_hash c ci.pswr = true
            · simp [hr, he, hm]
            · simp [hr, he, hm]
  · intro is_resend today code salt t1 t2 t3 res db' now hg h1 h2
    obtain ⟨hcode, -, rec, hfind, hpswr, hrev, hts⟩ :=
      generate_code_finds st db s1 is_resend today code salt t1 t2 t3 res db' hg
    rw [hk] at hfind
    have hnexp : ¬ rec.time_stamp_vencimiento < now := by
      rcases hts with ⟨-, hv⟩ | ⟨-, hv⟩ <;> omega
    have hver : CodeService.verify_code_hash res.code rec.pswr = true := by
      rw [hcode, hpswr]
      simp [CodeService.verify_code_hash, argon2verify]
    simp only [CodeService.validate_code]
    rw [hfind]
    simp [hrev, hnexp, hver]

/-- Claim C8 witness: a code generated under `"123"` validates successfully
under `"0123"` (same integer value 123). -/
theorem record_key_is_integer_value_witness :
    (CodeService.validate_code
        ⟨[⟨"123", "a@b.c", some 5, none, "Ana", "Eng", "OF1"⟩],
         [⟨123, "a@b.c", 5, ⟨7, "123456"⟩, 1000, 2800, 0, 0, none⟩]⟩
        "0123" "123456" 1500).1.success = true :=
  (record_key_is_integer_value ⟨30, 2, 5⟩
      ⟨[⟨"123", "a@b.c", some 5, none, "Ana", "Eng", "OF1"⟩], []⟩
      "123" "0123" (by decide) (by decide) (by decide)).2.2
    false 0 "123456" 7 1000 1000 0 ⟨"a@b.c", "Ana", "123456"⟩
    ⟨[⟨"123", "a@b.c", some 5, none, "Ana", "Eng", "OF1"⟩],
     [⟨123, "a@b.c", 5, ⟨7, "123456"⟩, 1000, 2800, 0, 0, none⟩]⟩
    1500 rfl (by decide) (by decide)

/-- Claim C3: the hourly-cap recovery path is broken in the source.  The
stored record has hit the cap (`resend_count = 5 = CODE_MAX_RESEND_PER_HOUR`)
and its `time_stamp_generacion` is 10000; a resend at `now = 14000` (more
than one hour later, and past the inter-resend delay) is allowed through,
but the counter reset performed inside `can_resend` is discarded — the
session is closed without commit — so `generate_code` re-reads the stale
row and stores `resend_count = 5 + 1 = 6`, not the `0 + 1 = 1` the
reset-then-count policy requires.  (The record's `time_stamp_generacion` is
also the LATEST code's issuance, not the window's first: every resend
overwrites it.) -/
theorem resend_after_window_keeps_stale_counter :
    CodeService.resend_code ⟨30, 2, 5⟩
        ⟨[⟨"123", "a@b.c", some 5, none, "Ana", "Eng", "OF1"⟩],
         [⟨123, "a@b.c", 5, ⟨7, "999999"⟩, 10000, 11800, 0, 5, some 10000⟩]⟩
        "123" 0 "111111" 8 14000 14000 14000 14000
      = .ok (⟨"a@b.c", "Ana", "111111"⟩,
             ⟨[⟨"123", "a@b.c", some 5, none, "Ana", "Eng", "OF1"⟩],
              [⟨123, "a@b.c", 5, ⟨8, "111111"⟩, 14000, 15800, 0, 6,
                some 14000⟩]⟩) ∧
    3600 < 14000 - 10000 ∧
    ((⟨123, "a@b.c", 5, ⟨7, "999999"⟩, 10000, 11800, 0, 5,
        some 10000⟩ : CodeVerification).can_resend ⟨30, 2, 5⟩ 14000).2.2.resend_count
      = 0 ∧
    (6 : Nat) ≠ 0 + 1 :=
  ⟨rfl, by decide, rfl, by decide⟩
